import Mathlib

/-!
Verification development for the ASTERIX/CoT surveillance pipeline.

This file gives a shallow embedding, in Lean 4, of the parts of the code
base whose specified behaviour is verified below:

* `klv_converter.py`  — the MISB ST 0601 / ST 0902 KLV encoder, decoder and
  validator (byte-level, embedded over `List Nat` byte strings);
* `asterix_cat48_consolidated.py` — the consolidated ASTERIX Cat 10/21/48
  decoder (byte-level; engineering-unit conversions over `ℚ`);
* `track_calculator.py` — the plot-to-track associator and the kinematics
  derivation (real-valued, embedded over `ℝ`), and the track-lifecycle
  bookkeeping (misses / states, embedded over `ℕ` with the association
  decisions treated as a nondeterministic oracle).

Machine integers are modelled as `Nat`/`Int` with explicit range guards
where Python's `struct` module enforces them; Python floats are modelled as
exact rationals (`ℚ`) where only field operations occur and as reals (`ℝ`)
where `sqrt`/`atan2`/`cos` appear.  Fallible Python code (raising
`struct.error`, `IndexError`, `ValueError`) is modelled with `Option`,
with the enclosing `try/except` blocks mapped to the `none` branch exactly
as the source handles them.
-/

/-! ## Byte-string helpers (Python `struct` and slicing semantics) -/

/-- Big-endian bytes of `n`, exactly `k` bytes (the value of
`struct.pack` for an in-range argument). -/
def beBytes : Nat → Nat → List Nat
  | 0, _ => []
  | k + 1, n => beBytes k (n / 256) ++ [n % 256]

/-- Big-endian value of a byte list (the loop
`length = (length << 8) | data[i]` used throughout `klv_converter.py`). -/
def beValue (bs : List Nat) : Nat :=
  bs.foldl (fun acc b => (acc <<< 8) ||| b) 0

/-- Model of `struct.pack` with an unsigned big-endian format of `k` bytes:
`struct.error` (→ `none`) unless `0 ≤ n < 2^(8k)`. -/
def packUBE (k n : Nat) : Option (List Nat) :=
  if n < 2 ^ (8 * k) then some (beBytes k n) else none

/-- Model of `struct.pack` with a signed big-endian format of `k` bytes:
`struct.error` (→ `none`) unless the value fits; the bytes are the
two's-complement representation. -/
def packIBE (k : Nat) (i : Int) : Option (List Nat) :=
  if -(2 ^ (8 * k - 1) : Int) ≤ i ∧ i < 2 ^ (8 * k - 1) then
    some (beBytes k (i % (2 ^ (8 * k) : Int)).toNat)
  else none

/-- Model of `struct.unpack` with an unsigned big-endian format of `k`
bytes: `struct.error` (→ `none`) unless the buffer is exactly `k` bytes. -/
def unpackUBE (k : Nat) (bs : List Nat) : Option Nat :=
  if bs.length = k then some (beValue bs) else none

/-- Two's-complement reading of a `k`-byte big-endian buffer (the value of
`struct.unpack` with a signed format on an exact-length buffer). -/
def twosComplement (k : Nat) (v : Nat) : Int :=
  if v < 2 ^ (8 * k - 1) then (v : Int) else (v : Int) - (2 ^ (8 * k) : Int)

/-- Model of `struct.unpack` with a signed big-endian format of `k` bytes. -/
def unpackIBE (k : Nat) (bs : List Nat) : Option Int :=
  if bs.length = k then some (twosComplement k (beValue bs)) else none

/-- Python's `int()` conversion of a float/rational: truncation toward
zero. -/
def pyInt (q : ℚ) : Int :=
  if 0 ≤ q then q.floor else -((-q).floor)

/-- Python's `%` on floats for a positive modulus (used as
`track['heading'] % 360`): the representative in `[0, m)`. -/
def pyModQ (a m : ℚ) : ℚ :=
  a - m * ((a / m).floor : ℚ)

/-! ## KLV converter (`klv_converter.py`, class `KLVConverter`)

Byte strings are `List Nat`; every function below is a direct transcription
of the corresponding method.  Bounded fuel replaces the Python `while`
loops that advance an offset; the fuel used is always at least the number
of loop iterations any terminating run performs, so the embedding agrees
with the source on every input on which the source terminates (the source
loops forever when `_decode_klv_item` returns a zero `total_length`).
-/

/-- MISB ST 0601 UAS Datalink Local Set Universal Key
(`self.UAS_DATALINK_LS_UL`). -/
def UAS_DATALINK_LS_UL : List Nat :=
  [0x06, 0x0E, 0x2B, 0x34, 0x02, 0x0B, 0x01, 0x01,
   0x0E, 0x01, 0x03, 0x01, 0x01, 0x00, 0x00, 0x00]

/-- MISB ST 0902 VMTi Local Set Universal Key (`self.VMTI_LS_UL`). -/
def VMTI_LS_UL : List Nat :=
  [0x06, 0x0E, 0x2B, 0x34, 0x02, 0x0B, 0x01, 0x01,
   0x0E, 0x01, 0x03, 0x03, 0x06, 0x00, 0x00, 0x00]

/-- Value types appearing in the element dictionaries
(`ST0601_ELEMENTS`, `ST0902_ELEMENTS`, `VMTI_TARGET_ELEMENTS`). -/
inductive KlvType where
  | uint8 | uint16 | uint24 | uint32 | uint64
  | int16 | int32
  | str | raw | localSet
deriving DecidableEq, Repr

/-- Types of the recognised ST 0601 element keys (`self.ST0601_ELEMENTS`);
`none` for keys absent from the dictionary. -/
def st0601ElementType : Nat → Option KlvType
  | 1 => some .uint16
  | 2 => some .uint64
  | 3 => some .str
  | 4 => some .str
  | 5 => some .uint16
  | 6 => some .int16
  | 7 => some .int16
  | 13 => some .int32
  | 14 => some .int32
  | 15 => some .uint16
  | 16 => some .uint16
  | 17 => some .uint16
  | 18 => some .uint32
  | 19 => some .int32
  | 20 => some .uint32
  | 21 => some .uint32
  | 22 => some .uint16
  | 23 => some .int32
  | 24 => some .int32
  | 25 => some .uint16
  | 40 => some .int32
  | 41 => some .int32
  | 42 => some .uint16
  | 65 => some .uint8
  | _ => none

/-- Types of the recognised ST 0902 element keys (`self.ST0902_ELEMENTS`). -/
def st0902ElementType : Nat → Option KlvType
  | 1 => some .uint16
  | 2 => some .uint64
  | 3 => some .str
  | 4 => some .str
  | 5 => some .str
  | 6 => some .str
  | 7 => some .str
  | 8 => some .str
  | 9 => some .uint16
  | 10 => some .uint16
  | 11 => some .uint32
  | 12 => some .uint16
  | 13 => some .uint16
  | 14 => some .int32
  | 15 => some .int32
  | 16 => some .uint16
  | 101 => some .localSet
  | _ => none

/-- Types of the recognised VMTi target element keys
(`self.VMTI_TARGET_ELEMENTS`). -/
def vmtiTargetElementType : Nat → Option KlvType
  | 1 => some .uint16
  | 2 => some .uint16
  | 3 => some .uint8
  | 4 => some .uint8
  | 5 => some .int32
  | 6 => some .int32
  | 7 => some .uint16
  | 8 => some .uint16
  | 9 => some .uint16
  | 10 => some .uint16
  | 11 => some .uint16
  | 12 => some .uint8
  | 13 => some .uint8
  | 14 => some .uint8
  | 15 => some .uint8
  | 16 => some .uint24
  | 17 => some .uint8
  | 18 => some .raw
  | 19 => some .int16
  | 20 => some .int16
  | _ => none

/-- Decoded item value, mirroring what `_decode_value` returns: numbers,
strings (kept as their UTF-8 bytes), hex dumps (kept as bytes), or the
`None` produced when the method's `except` branch fires. -/
inductive KlvValue where
  | uintVal (n : Nat)
  | intVal (i : Int)
  | strVal (bs : List Nat)
  | hexVal (bs : List Nat)
  | failed
deriving DecidableEq, Repr

/-- Transcription of `KLVConverter._decode_value`.  Note the asymmetry of
the source: a buffer *shorter* than the format yields `0`, while a buffer
*longer* than the fixed-size format makes `struct.unpack` raise, which the
method's `except` turns into `None` (here `KlvValue.failed`). -/
def decode_value (value : List Nat) : KlvType → KlvValue
  | .uint8 =>
    if value.length < 1 then .uintVal 0
    else match unpackUBE 1 value with
      | some n => .uintVal n
      | none => .failed
  | .uint16 =>
    if value.length < 2 then .uintVal 0
    else match unpackUBE 2 value with
      | some n => .uintVal n
      | none => .failed
  | .uint24 =>
    if value.length < 3 then .uintVal 0
    else .uintVal ((value.getD 0 0 <<< 16) ||| (value.getD 1 0 <<< 8) ||| value.getD 2 0)
  | .uint32 =>
    if value.length < 4 then .uintVal 0
    else match unpackUBE 4 value with
      | some n => .uintVal n
      | none => .failed
  | .uint64 =>
    if value.length < 8 then .uintVal 0
    else match unpackUBE 8 value with
      | some n => .uintVal n
      | none => .failed
  | .int16 =>
    if value.length < 2 then .uintVal 0
    else match unpackIBE 2 value with
      | some i => .intVal i
      | none => .failed
  | .int32 =>
    if value.length < 4 then .uintVal 0
    else match unpackIBE 4 value with
      | some i => .intVal i
      | none => .failed
  | .str => .strVal value
  | .raw => .hexVal value
  | .localSet => .hexVal value

/-- Transcription of `KLVConverter._encode_ber_length`, short form for
lengths `≤ 127`.  The helper `berLenBytes` plays the role of the
`while temp_length > 0` loop (big-endian bytes without leading zeros);
its fuel bounds the byte count and is irrelevant below `2^128`. -/
def berLenBytes : Nat → Nat → List Nat
  | 0, _ => []
  | _, 0 => []
  | fuel + 1, n => berLenBytes fuel (n / 256) ++ [n % 256]

/-- BER length encoding (`_encode_ber_length`). -/
def encode_ber_length (length : Nat) : List Nat :=
  if length ≤ 127 then [length]
  else
    let lb := berLenBytes 16 length
    [0x80 ||| lb.length] ++ lb

/-- Transcription of `KLVConverter._decode_ber_length`.  `none` models the
exceptions the source can raise there (`IndexError` on a short buffer,
`ValueError` on the indefinite form); its callers wrap the call in
`try/except`. -/
def decode_ber_length : List Nat → Option (Nat × Nat)
  | [] => none
  | b :: rest =>
    if b ≤ 127 then some (b, 1)
    else
      let numOctets := b &&& 0x7F
      if numOctets = 0 then none
      else if rest.length < numOctets then none
      else some (beValue (rest.take numOctets), numOctets + 1)

/-- Continuation bytes of the BER-OID encoding (`_encode_ber_oid`'s
`while temp > 0` loop), big-endian with the MSB set. -/
def berOidHigh : Nat → Nat → List Nat
  | 0, _ => []
  | _, 0 => []
  | fuel + 1, t => berOidHigh fuel (t >>> 7) ++ [(t &&& 0x7F) ||| 0x80]

/-- BER-OID key encoding (`_encode_ber_oid`). -/
def encode_ber_oid (oid : Nat) : List Nat :=
  if oid ≤ 127 then [oid]
  else berOidHigh 16 (oid >>> 7) ++ [oid &&& 0x7F]

/-- Loop body of `KLVConverter._decode_ber_oid`: accumulate 7 bits per
byte until a byte with clear MSB (or the end of the data). -/
def decodeBerOidGo : List Nat → Nat → Nat → Nat × Nat
  | [], acc, off => (acc, off)
  | b :: rest, acc, off =>
    let acc := (acc <<< 7) ||| (b &&& 0x7F)
    if b &&& 0x80 = 0 then (acc, off + 1)
    else decodeBerOidGo rest acc (off + 1)

/-- BER-OID key decoding (`_decode_ber_oid`): returns `(oid, bytes used)`. -/
def decode_ber_oid (data : List Nat) : Nat × Nat :=
  decodeBerOidGo data 0 0

/-- Transcription of `KLVConverter._encode_klv_item`. -/
def encode_klv_item (key : Nat) (value : List Nat) : List Nat :=
  (if key ≤ 127 then [key] else encode_ber_oid key)
    ++ encode_ber_length value.length ++ value

/-- Transcription of `KLVConverter._decode_klv_item`: returns
`(key, value, total_length)`, and `(0, [], 0)` where the source's
`except` branch fires (empty data, bad BER length). The value slice may be
shorter than the declared length, exactly as a Python slice is. -/
def decode_klv_item (data : List Nat) : Nat × List Nat × Nat :=
  match data with
  | [] => (0, [], 0)
  | b :: _ =>
    let (key, off) := if b ≤ 127 then (b, 1) else decode_ber_oid data
    match decode_ber_length (data.drop off) with
    | none => (0, [], 0)
    | some (len, lenBytes) =>
      let off2 := off + lenBytes
      (key, (data.drop off2).take len, off2 + len)

/-- Accumulator loop of `KLVConverter._calculate_checksum`: sum 16-bit
big-endian words (an odd trailing byte is taken as the high byte),
masking to 16 bits at each step. -/
def checksumAcc : List Nat → Nat → Nat
  | [], acc => acc
  | [b], acc => (acc + (b <<< 8)) &&& 0xFFFF
  | b0 :: b1 :: rest, acc => checksumAcc rest ((acc + ((b0 <<< 8) ||| b1)) &&& 0xFFFF)

/-- Transcription of `KLVConverter._calculate_checksum`. -/
def calculate_checksum (data : List Nat) : Nat :=
  (0x10000 - checksumAcc data 0) &&& 0xFFFF

/-- Item-parsing loop shared by `_parse_st0601_packet`,
`_parse_st0902_packet` and `_parse_vmti_targets`: walk the local-set
bytes, decode one item at a time, keep the recognised keys with their
decoded values.  The fuel bounds the iteration count; with fuel
`data.length + 1` it only truncates runs on which the Python
`while offset < len` loop would never terminate (a zero `item_length`). -/
def parseItemsGo (elements : Nat → Option KlvType) :
    Nat → List Nat → Nat → List (Nat × KlvValue)
  | 0, _, _ => []
  | fuel + 1, data, offset =>
    if offset < data.length then
      let (key, value, itemLength) := decode_klv_item (data.drop offset)
      let rest := parseItemsGo elements fuel data (offset + itemLength)
      match elements key with
      | some ty => (key, decode_value value ty) :: rest
      | none => rest
    else []

/-- Recognised-item list of a local set (the dictionary the Python parsers
accumulate; we keep the item order, where the Python `dict` would merge
duplicate keys by overwriting). -/
def parseLocalSetItems (elements : Nat → Option KlvType) (data : List Nat) :
    List (Nat × KlvValue) :=
  parseItemsGo elements (data.length + 1) data 0

/-- Which Local Set standard a packet carries. -/
inductive KlvStandard where
  | st0601 | st0902
deriving DecidableEq, Repr

/-- Parsed packet metadata: the standard, the recognised top-level items,
and (for ST 0902) the VMTi target list that `_parse_vmti_targets` builds.
The Python functions return a `dict`; `none` at the packet level models
the empty dict `{}` they return from their `except` branches and for
unknown Universal Keys. -/
structure KlvMetadata where
  standard : KlvStandard
  items : List (Nat × KlvValue)
  targets : List (List (Nat × KlvValue))
deriving DecidableEq, Repr

/-- Transcription of `KLVConverter._parse_vmti_targets`: a single target
dictionary is filled from the items and appended if non-empty. -/
def parse_vmti_targets (vmtiData : List Nat) : List (List (Nat × KlvValue)) :=
  let target := parseLocalSetItems vmtiTargetElementType vmtiData
  if target.isEmpty then [] else [target]

/-- Transcription of `KLVConverter._parse_st0601_packet` (metadata body;
the standard tag and hex key the Python adds are carried by the
structure).  No checksum verification is performed anywhere on this
path. -/
def parse_st0601_packet (klvData : List Nat) : Option KlvMetadata :=
  match decode_ber_length (klvData.drop 16) with
  | none => none
  | some (length, lengthBytes) =>
    let localSetData := ((klvData.drop (16 + lengthBytes)).take length)
    some { standard := .st0601
           items := parseLocalSetItems st0601ElementType localSetData
           targets := [] }

/-- Transcription of `KLVConverter._parse_st0902_packet`; key 101 is
routed to `parse_vmti_targets`, every other recognised key through
`decode_value`. -/
def parse_st0902_packet (klvData : List Nat) : Option KlvMetadata :=
  match decode_ber_length (klvData.drop 16) with
  | none => none
  | some (length, lengthBytes) =>
    let localSetData := ((klvData.drop (16 + lengthBytes)).take length)
    let go : Nat → Nat → List (Nat × KlvValue) × List (List (Nat × KlvValue)) :=
      fun fuel offset => Id.run do
        let mut items : List (Nat × KlvValue) := []
        let mut targets : List (List (Nat × KlvValue)) := []
        let mut off := offset
        for _ in [0:fuel] do
          if off < localSetData.length then
            let (key, value, itemLength) := decode_klv_item (localSetData.drop off)
            if key = 101 then
              targets := parse_vmti_targets value
            else
              match st0902ElementType key with
              | some ty => items := items ++ [(key, decode_value value ty)]
              | none => pure ()
            off := off + itemLength
          else
            pure ()
        return (items, targets)
    let (items, targets) := go (localSetData.length + 1) 0
    some { standard := .st0902, items := items, targets := targets }

/-- Transcription of `KLVConverter.parse_klv_packet`: dispatch on the
16-byte Universal Key; `none` models the empty dict returned for short
data and unknown keys. -/
def parse_klv_packet (klvData : List Nat) : Option KlvMetadata :=
  if klvData.length < 16 then none
  else
    let ulKey := klvData.take 16
    if ulKey = UAS_DATALINK_LS_UL then parse_st0601_packet klvData
    else if ulKey = VMTI_LS_UL then parse_st0902_packet klvData
    else none

/-- Transcription of `KLVConverter.validate_klv_packet`: length ≥ 16, a
known Universal Key, and the BER length consistent with the total packet
size.  The source ends with `# TODO: Validate checksum if present` — the
checksum is NOT checked. -/
def validate_klv_packet (klvData : List Nat) : Bool :=
  if klvData.length < 16 then false
  else
    let ulKey := klvData.take 16
    if ulKey ≠ UAS_DATALINK_LS_UL ∧ ulKey ≠ VMTI_LS_UL then false
    else
      match decode_ber_length (klvData.drop 16) with
      | none => false
      | some (length, lengthBytes) =>
        decide (klvData.length = 16 + lengthBytes + length)

/-- Track dictionary fields consumed by `_create_st0601_packet`.  The
string-valued entries (`mission_id`, `platform_id`) are carried as their
UTF-8 bytes, after the `track.get(...)` defaulting the source applies. -/
structure KlvTrack where
  mission_id : List Nat
  platform_id : List Nat
  heading : Option ℚ
  latitude : Option ℚ
  longitude : Option ℚ
  altitude : Option ℚ
deriving DecidableEq, Repr

/-- Transcription of `KLVConverter._create_st0601_packet`, parameterised
by the microsecond timestamp the source takes from `datetime.utcnow()`.
The `Option` threading mirrors the method-level `try/except`: any
`struct.error` inside makes the whole method return the empty byte string
`b''`. -/
def create_st0601_packet (timestampUs : Nat) (track : KlvTrack) : List Nat :=
  let body : Option (List Nat) := do
    let tsBytes ← packUBE 8 timestampUs
    let ls0 := encode_klv_item 2 tsBytes
    let ls1 := ls0 ++ encode_klv_item 3 track.mission_id
    let ls2 := ls1 ++ encode_klv_item 4 track.platform_id
    let ls3 ← match track.heading with
      | none => some ls2
      | some h => do
        let raw := pyInt (pyModQ h 360 * 65536 / 360)
        let hb ← packUBE 2 raw.toNat
        pure (ls2 ++ encode_klv_item 5 hb)
    let ls4 ← match track.latitude, track.longitude with
      | some lat, some lon => do
        let latEnc := pyInt (lat * (2 ^ 31 - 1) / 90)
        let latBytes ← packIBE 4 latEnc
        let lonEnc := pyInt (lon * (2 ^ 31 - 1) / 180)
        let lonBytes ← packIBE 4 lonEnc
        let ls := ls3 ++ encode_klv_item 40 latBytes ++ encode_klv_item 41 lonBytes
        match track.altitude with
        | none => pure ls
        | some alt => do
          let elevation := (pyInt (max 0 (alt * (3048 / 10000)))).toNat
          let eb ← packUBE 2 (min 65535 elevation)
          pure (ls ++ encode_klv_item 42 eb)
      | _, _ => pure ls3
    let ls5 := ls4 ++ encode_klv_item 65 [16]
    let checksum := calculate_checksum (UAS_DATALINK_LS_UL ++ ls5)
    let checksumItem := encode_klv_item 1 (beBytes 2 checksum)
    let localSet := checksumItem ++ ls5
    pure (UAS_DATALINK_LS_UL ++ encode_ber_length localSet.length ++ localSet)
  match body with
  | some packet => packet
  | none => []

/-! ## ASTERIX consolidated processor (`asterix_cat48_consolidated.py`,
class `AsterixConsolidatedProcessor`)

Messages are byte lists.  Item codes are modelled as `(category, number)`
pairs instead of the Python strings `"I048/010"` (the special codes
`SP`/`RE` become numbers 900/901, and the empty strings in the FSPEC
mapping tables become `none`).  Display-only strings built by the source
(type descriptions, octal/hex renderings, generated track-id strings) are
modelled by the underlying numeric data they render. -/

/-- Data-item code: category and item number (SP = 900, RE = 901). -/
structure ItemCode where
  cat : Nat
  num : Nat
deriving DecidableEq, Repr

/-- CAT-48 FSPEC mapping, UAP order (`self.cat48_fspec_mapping`). -/
def cat48_fspec_mapping : List (List (Option ItemCode)) :=
  [[some ⟨48, 10⟩, some ⟨48, 140⟩, some ⟨48, 20⟩, some ⟨48, 40⟩,
    some ⟨48, 70⟩, some ⟨48, 90⟩, some ⟨48, 130⟩],
   [some ⟨48, 220⟩, some ⟨48, 240⟩, some ⟨48, 250⟩, some ⟨48, 161⟩,
    some ⟨48, 42⟩, some ⟨48, 200⟩, some ⟨48, 170⟩],
   [some ⟨48, 210⟩, some ⟨48, 30⟩, some ⟨48, 80⟩, some ⟨48, 100⟩,
    some ⟨48, 110⟩, some ⟨48, 120⟩, some ⟨48, 230⟩],
   [some ⟨48, 260⟩, some ⟨48, 55⟩, some ⟨48, 50⟩, some ⟨48, 65⟩,
    some ⟨48, 60⟩, some ⟨48, 900⟩, some ⟨48, 901⟩]]

/-- CAT-21 FSPEC mapping (`self.cat21_fspec_mapping`). -/
def cat21_fspec_mapping : List (List (Option ItemCode)) :=
  [[some ⟨21, 10⟩, some ⟨21, 40⟩, some ⟨21, 30⟩, some ⟨21, 130⟩,
    some ⟨21, 80⟩, some ⟨21, 140⟩, some ⟨21, 90⟩],
   [some ⟨21, 210⟩, some ⟨21, 230⟩, some ⟨21, 145⟩, some ⟨21, 150⟩,
    some ⟨21, 151⟩, some ⟨21, 152⟩, some ⟨21, 155⟩],
   [some ⟨21, 157⟩, some ⟨21, 160⟩, some ⟨21, 165⟩, some ⟨21, 170⟩,
    some ⟨21, 95⟩, some ⟨21, 32⟩, some ⟨21, 200⟩],
   [some ⟨21, 20⟩, some ⟨21, 220⟩, some ⟨21, 146⟩, some ⟨21, 148⟩,
    some ⟨21, 110⟩, some ⟨21, 16⟩, some ⟨21, 8⟩]]

/-- CAT-10 FSPEC mapping (`self.cat10_fspec_mapping`); the two empty
strings in the last octet are `none`. -/
def cat10_fspec_mapping : List (List (Option ItemCode)) :=
  [[some ⟨10, 10⟩, some ⟨10, 20⟩, some ⟨10, 40⟩, some ⟨10, 41⟩,
    some ⟨10, 42⟩, some ⟨10, 200⟩, some ⟨10, 202⟩],
   [some ⟨10, 161⟩, some ⟨10, 170⟩, some ⟨10, 60⟩, some ⟨10, 220⟩,
    some ⟨10, 245⟩, some ⟨10, 250⟩, some ⟨10, 300⟩],
   [some ⟨10, 90⟩, some ⟨10, 91⟩, some ⟨10, 270⟩, some ⟨10, 550⟩,
    some ⟨10, 310⟩, some ⟨10, 500⟩, some ⟨10, 280⟩],
   [some ⟨10, 131⟩, some ⟨10, 210⟩, some ⟨10, 140⟩, some ⟨10, 901⟩,
    some ⟨10, 900⟩, none, none]]

/-- Loop of `_extract_fspec`: read at most 4 FSPEC bytes, stopping after
the first byte with FX (bit 0) clear. -/
def extractFspecGo : Nat → List Nat → List Nat × Nat
  | 0, _ => ([], 0)
  | _ + 1, [] => ([], 0)
  | k + 1, b :: rest =>
    if b &&& 0x01 = 0 then ([b], 1)
    else
      let (fs, n) := extractFspecGo k rest
      (b :: fs, n + 1)

/-- Transcription of `_extract_fspec`: returns `(fspec bytes, count)`. -/
def extract_fspec (data : List Nat) : List Nat × Nat :=
  extractFspecGo 4 data

/-- Inner loop of `_decode_fspec` for one FSPEC octet: bits 7..1 select
UAP positions 0..6 (bit 0 is FX); empty mapping entries are skipped. -/
def fspecRowItems (octet : Nat) (row : List (Option ItemCode)) : List ItemCode :=
  (List.range 7).filterMap fun bitIdx =>
    if octet &&& (1 <<< (7 - bitIdx)) ≠ 0 ∧ bitIdx < row.length then
      row.getD bitIdx none
    else none

/-- Transcription of `_decode_fspec`: octets beyond the mapping are
ignored (the Python `break`). -/
def decode_fspec : List Nat → List (List (Option ItemCode)) → List ItemCode
  | [], _ => []
  | _, [] => []
  | octet :: restFspec, row :: restMapping =>
    fspecRowItems octet row ++ decode_fspec restFspec restMapping

/-- Decoded value of one data item, mirroring the dictionaries the
per-item parsers return.  Values the source only renders for display keep
their numeric payload: `mode3A` keeps the 12-bit code the source prints as
4 octal digits, `address` keeps the 24-bit value printed as 6 hex digits,
`targetDescriptor` keeps TYP and the flag bits whose description string
is looked up in `cat48_target_types`, and `warningsVal` keeps the warning
bit numbers whose display names are looked up in `warning_names`. -/
inductive ItemValue where
  | dataSource (sac sic : Nat)
  | targetDescriptor (typ sim rdp spi rab tst raw : Nat)
  | warningsVal (warnings : List Nat) (raw : Nat)
  | polar (range azimuth : ℚ)
  | mode3A (code raw : Nat)
  | flightLevel (fl : ℚ)
  | doppler (speed : Int)
  | timeOfDay (seconds : ℚ)
  | trackNum (n : Nat)
  | trackStatus (cnf tre cst mah tcc sth tom : Nat)
  | velocity (groundSpeed : Nat) (heading : ℚ)
  | address (addr : Nat)
  | callsign (cs : String)
  | wgs84 (lat lon : ℚ)
  | rawData (bs : List Nat)
deriving DecidableEq, Repr

/-- Transcription of `_get_variable_length`: one byte per iteration until
a byte with FX clear, capped after index 10. -/
def getVarLengthGo : List Nat → Nat → Nat
  | [], _ => 0
  | b :: rest, i =>
    1 + (if b &&& 0x01 = 0 then 0 else if 10 ≤ i then 0 else getVarLengthGo rest (i + 1))

/-- Length of a variable-length data item (`_get_variable_length`). -/
def get_variable_length (data : List Nat) : Nat :=
  getVarLengthGo data 0

/-- Transcription of `_decode_cat48_target_descriptor` (first byte only,
as in the source). -/
def decode_cat48_target_descriptor (data : List Nat) : ItemValue :=
  let d := data.getD 0 0
  .targetDescriptor (d &&& 0x07) ((d >>> 3) &&& 0x01) ((d >>> 4) &&& 0x01)
    ((d >>> 5) &&& 0x01) ((d >>> 6) &&& 0x01) ((d >>> 7) &&& 0x01) d

/-- Bit-accumulation loop of `_decode_warning_conditions`:
`warning_bits |= (byte & 0xFE) << (i*7)` until FX clear. -/
def warningBitsGo : List Nat → Nat → Nat → Nat
  | [], acc, _ => acc
  | b :: rest, acc, i =>
    let acc := acc ||| ((b &&& 0xFE) <<< (i * 7))
    if b &&& 0x01 = 0 then acc else warningBitsGo rest acc (i + 1)

/-- Transcription of `_decode_warning_conditions`; the warning list holds
the set bit numbers 0..6 (the source maps them to display strings). -/
def decode_warning_conditions (data : List Nat) : ItemValue :=
  let bits := warningBitsGo data 0 0
  .warningsVal ((List.range 7).filter fun bit => bits &&& (1 <<< bit) ≠ 0) bits

/-- Transcription of `_decode_track_status` (first byte only). -/
def decode_track_status (data : List Nat) : ItemValue :=
  let b := data.getD 0 0
  .trackStatus ((b >>> 7) &&& 0x01) ((b >>> 6) &&& 0x01) ((b >>> 5) &&& 0x01)
    ((b >>> 4) &&& 0x01) ((b >>> 3) &&& 0x01) ((b >>> 2) &&& 0x01) ((b >>> 1) &&& 0x01)

/-- Character at a position of the IA-5 6-bit alphabet
`" ABCDEFGHIJKLMNOPQRSTUVWXYZ????? ???????????????0123456789??????"`
used by `_decode_callsign`. -/
def ia5Char (v : Nat) : Char :=
  if v = 0 then ' '
  else if v ≤ 26 then Char.ofNat (64 + v)
  else if v = 32 then ' '
  else if 48 ≤ v ∧ v ≤ 57 then Char.ofNat v
  else '?'

/-- Chunk loop of `_decode_callsign`: four 6-bit characters per 3 bytes;
a trailing partial chunk is skipped (`if i + 2 < len(data)`). -/
def callsignChars : List Nat → List Char
  | b0 :: b1 :: b2 :: rest =>
    let v := (b0 <<< 16) ||| (b1 <<< 8) ||| b2
    ia5Char ((v >>> 18) &&& 0x3F) :: ia5Char ((v >>> 12) &&& 0x3F) ::
      ia5Char ((v >>> 6) &&& 0x3F) :: ia5Char (v &&& 0x3F) :: callsignChars rest
  | _ => []

/-- Python's `str.rstrip()` restricted to the spaces that occur here. -/
def rstripSpaces (cs : List Char) : List Char :=
  (cs.reverse.dropWhile (· = ' ')).reverse

/-- Transcription of `_decode_callsign`. -/
def decode_callsign (data : List Nat) : String :=
  String.mk (rstripSpaces (callsignChars data))

/-- Model of `struct.unpack` format `'>II'` applied to a buffer: it
demands exactly 8 bytes and yields two big-endian 32-bit words, raising
`struct.error` (→ `none`) otherwise. -/
def unpackU32PairBE (bs : List Nat) : Option (Nat × Nat) :=
  if bs.length = 8 then some (beValue (bs.take 4), beValue (bs.drop 4)) else none

/-- Transcription of `_parse_cat48_data_item`: returns the decoded item
(or `none`) and the number of bytes consumed. -/
def parse_cat48_data_item (code : ItemCode) (data : List Nat) : Option ItemValue × Nat :=
  match code.cat, code.num with
  | 48, 10 =>
    if data.length < 2 then (none, 0)
    else (some (.dataSource (data.getD 0 0) (data.getD 1 0)), 2)
  | 48, 20 =>
    if data.length < 1 then (none, 0)
    else (some (decode_cat48_target_descriptor data), get_variable_length data)
  | 48, 30 =>
    if data.length < 1 then (none, 0)
    else (some (decode_warning_conditions data), get_variable_length data)
  | 48, 40 =>
    if data.length < 4 then (none, 0)
    else
      let rhoRaw := beValue (data.take 2)
      let thetaRaw := beValue ((data.drop 2).take 2)
      (some (.polar ((rhoRaw : ℚ) / 256) ((thetaRaw : ℚ) * 360 / 65536)), 4)
  | 48, 70 =>
    if data.length < 2 then (none, 0)
    else
      let raw := beValue (data.take 2)
      (some (.mode3A (raw &&& 0x0FFF) raw), 2)
  | 48, 90 =>
    if data.length < 2 then (none, 0)
    else
      let flRaw := twosComplement 2 (beValue (data.take 2))
      (some (.flightLevel ((flRaw : ℚ) / 4)), 2)
  | 48, 120 =>
    if data.length < 2 then (none, 0)
    else (some (.doppler (twosComplement 2 (beValue (data.take 2)))), 2)
  | 48, 140 =>
    if data.length < 3 then (none, 0)
    else
      let timeRaw := beValue (0 :: data.take 3)
      (some (.timeOfDay ((timeRaw : ℚ) / 128)), 3)
  | 48, 161 =>
    if data.length < 2 then (none, 0)
    else (some (.trackNum (beValue (data.take 2))), 2)
  | 48, 170 =>
    if data.length < 1 then (none, 0)
    else (some (decode_track_status data), get_variable_length data)
  | 48, 200 =>
    if data.length < 4 then (none, 0)
    else
      let speedRaw := beValue (data.take 2)
      let headingRaw := beValue ((data.drop 2).take 2)
      (some (.velocity speedRaw ((headingRaw : ℚ) * 360 / 65536)), 4)
  | 48, 220 =>
    if data.length < 3 then (none, 0)
    else (some (.address (beValue (0 :: data.take 3))), 3)
  | 48, 240 =>
    if data.length < 6 then (none, 0)
    else (some (.callsign (decode_callsign (data.take 6))), 6)
  | _, _ =>
    (some (.rawData (data.take (min 8 data.length))), min 8 data.length)

/-- Transcription of `_parse_cat21_data_item`.  In the `I021/040` branch
the source calls `struct.unpack('>II', data[:6])`, which always raises
`struct.error` (the format needs 8 bytes but the slice has 6); the
method-level `except` then returns `(None, 0)`. -/
def parse_cat21_data_item (code : ItemCode) (data : List Nat) : Option ItemValue × Nat :=
  match code.cat, code.num with
  | 21, 10 =>
    if data.length < 2 then (none, 0)
    else (some (.dataSource (data.getD 0 0) (data.getD 1 0)), 2)
  | 21, 40 =>
    if data.length < 6 then (none, 0)
    else
      match unpackU32PairBE (data.take 6) with
      | none => (none, 0)
      | some (latRaw, lonRaw) =>
        (some (.wgs84 ((latRaw : ℚ) * 180 / 2 ^ 23) ((lonRaw : ℚ) * 180 / 2 ^ 23)), 6)
  | 21, 80 =>
    if data.length < 3 then (none, 0)
    else (some (.address (beValue (0 :: data.take 3))), 3)
  | 21, 145 =>
    if data.length < 2 then (none, 0)
    else
      let flRaw := twosComplement 2 (beValue (data.take 2))
      (some (.flightLevel ((flRaw : ℚ) / 4)), 2)
  | 21, 170 =>
    if data.length < 6 then (none, 0)
    else (some (.callsign (decode_callsign (data.take 6))), 6)
  | _, _ =>
    (some (.rawData (data.take (min 8 data.length))), min 8 data.length)

/-- Transcription of `_parse_cat10_data_item`. -/
def parse_cat10_data_item (code : ItemCode) (data : List Nat) : Option ItemValue × Nat :=
  match code.cat, code.num with
  | 10, 10 =>
    if data.length < 2 then (none, 0)
    else (some (.dataSource (data.getD 0 0) (data.getD 1 0)), 2)
  | 10, 40 =>
    if data.length < 4 then (none, 0)
    else
      let rhoRaw := beValue (data.take 2)
      let thetaRaw := beValue ((data.drop 2).take 2)
      (some (.polar ((rhoRaw : ℚ) / 256) ((thetaRaw : ℚ) * 360 / 65536)), 4)
  | 10, 220 =>
    if data.length < 3 then (none, 0)
    else (some (.address (beValue (0 :: data.take 3))), 3)
  | 10, 245 =>
    if data.length < 6 then (none, 0)
    else (some (.callsign (decode_callsign (data.take 6))), 6)
  | _, _ =>
    (some (.rawData (data.take (min 8 data.length))), min 8 data.length)

/-- Station origin default `radar_lat = 28.0836` of
`_convert_polar_to_latlon`. -/
noncomputable def radar_lat : ℝ := 28.0836

/-- Station origin default `radar_lon = -80.6081`. -/
noncomputable def radar_lon : ℝ := -80.6081

/-- Transcription of `_convert_polar_to_latlon` at the default station
origin: flat-Earth projection with Earth radius 3443.92 NM. -/
noncomputable def convert_polar_to_latlon (rangeNM azimuthDeg : ℝ) : ℝ × ℝ :=
  let azimuthRad := azimuthDeg * Real.pi / 180
  let earthRadiusNM : ℝ := 3443.92
  let deltaLat := (rangeNM / earthRadiusNM) * Real.cos azimuthRad
  let deltaLon := (rangeNM / earthRadiusNM) * Real.sin azimuthRad /
    Real.cos (radar_lat * Real.pi / 180)
  let deltaLatDeg := deltaLat * 180 / Real.pi
  let deltaLonDeg := deltaLon * 180 / Real.pi
  (radar_lat + deltaLatDeg, radar_lon + deltaLonDeg)

/-- Generated track identifier (`_generate_track_id`): the source renders
these cases as formatted strings; the hash fallback depends on Python's
runtime string hash and is kept abstract. -/
inductive GeneratedTrackId where
  | byAddress (addr : Nat)
  | byMode3a (code : Nat)
  | byTrackNumber (n : Nat)
  | byPosition (rangeTimes10 azimuthTimes10 : Int)
  | byHash
deriving DecidableEq, Repr

/-- Target dictionary built by the three `_process_catNN_message` methods
(union of their keys; fields a category never sets stay `none`).  String
renderings are replaced by their numeric payloads as in `ItemValue`;
`detection_type` keeps the TYP value whose description the source looks
up.  Fields the source initialises but never assigns on these paths
(`altitude`, `ground_speed` for Cat-21, ...) default to `none` exactly as
the Python dict keeps `None`. -/
structure AsterixTarget where
  category : Nat
  data_items : List (ItemCode × ItemValue) := []
  track_id : Option GeneratedTrackId := none
  callsign : Option String := none
  latitude : Option ℝ := none
  longitude : Option ℝ := none
  altitude : Option ℚ := none
  ground_speed : Option Nat := none
  heading : Option ℚ := none
  range : Option ℚ := none
  azimuth : Option ℚ := none
  mode_3a : Option Nat := none
  aircraft_address : Option Nat := none
  detection_type : Option Nat := none
  time_of_day : Option ℚ := none
  track_number : Option Nat := none
  flight_level : Option ℚ := none
  radial_doppler_speed : Option Int := none
  warning_conditions : List Nat := []

/-- Transcription of `_generate_track_id`, including the Python
truthiness tests: the address and Mode-3/A renderings are non-empty
strings (always truthy), while a zero track number or zero range/azimuth
is falsy. -/
def generate_track_id (t : AsterixTarget) : GeneratedTrackId :=
  if t.aircraft_address.isSome then .byAddress (t.aircraft_address.getD 0)
  else if t.mode_3a.isSome then .byMode3a (t.mode_3a.getD 0)
  else if t.track_number.getD 0 ≠ 0 then .byTrackNumber (t.track_number.getD 0)
  else if t.range.getD 0 ≠ 0 ∧ t.azimuth.getD 0 ≠ 0 then
    .byPosition (pyInt (t.range.getD 0 * 10)) (pyInt (t.azimuth.getD 0 * 10))
  else .byHash

/-- Transcription of `_apply_cat48_item_to_target`.  In the `I048/040`
branch the source converts to lat/lon only when both floats are truthy
(non-zero). -/
noncomputable def apply_cat48_item_to_target (t : AsterixTarget) :
    ItemCode → ItemValue → AsterixTarget
  | ⟨48, 20⟩, .targetDescriptor typ _ _ _ _ _ _ => { t with detection_type := some typ }
  | ⟨48, 30⟩, .warningsVal ws _ => { t with warning_conditions := ws }
  | ⟨48, 40⟩, .polar r az =>
    let t := { t with range := some r, azimuth := some az }
    if r ≠ 0 ∧ az ≠ 0 then
      let p := convert_polar_to_latlon (r : ℝ) (az : ℝ)
      { t with latitude := some p.1, longitude := some p.2 }
    else t
  | ⟨48, 70⟩, .mode3A code _ => { t with mode_3a := some code }
  | ⟨48, 90⟩, .flightLevel fl => { t with flight_level := some fl }
  | ⟨48, 120⟩, .doppler v => { t with radial_doppler_speed := some v }
  | ⟨48, 140⟩, .timeOfDay s => { t with time_of_day := some s }
  | ⟨48, 161⟩, .trackNum n => { t with track_number := some n }
  | ⟨48, 200⟩, .velocity gs hd => { t with ground_speed := some gs, heading := some hd }
  | ⟨48, 220⟩, .address a => { t with aircraft_address := some a }
  | ⟨48, 240⟩, .callsign cs => { t with callsign := some cs }
  | _, _ => t

/-- Transcription of `_apply_cat21_item_to_target`. -/
def apply_cat21_item_to_target (t : AsterixTarget) :
    ItemCode → ItemValue → AsterixTarget
  | ⟨21, 40⟩, .wgs84 lat lon =>
    { t with latitude := some (lat : ℝ), longitude := some (lon : ℝ) }
  | ⟨21, 80⟩, .address a => { t with aircraft_address := some a }
  | ⟨21, 145⟩, .flightLevel fl => { t with flight_level := some fl }
  | ⟨21, 170⟩, .callsign cs => { t with callsign := some cs }
  | _, _ => t

/-- Transcription of `_apply_cat10_item_to_target`. -/
noncomputable def apply_cat10_item_to_target (t : AsterixTarget) :
    ItemCode → ItemValue → AsterixTarget
  | ⟨10, 40⟩, .polar r az =>
    let t := { t with range := some r, azimuth := some az }
    if r ≠ 0 ∧ az ≠ 0 then
      let p := convert_polar_to_latlon (r : ℝ) (az : ℝ)
      { t with latitude := some p.1, longitude := some p.2 }
    else t
  | ⟨10, 220⟩, .address a => { t with aircraft_address := some a }
  | ⟨10, 245⟩, .callsign cs => { t with callsign := some cs }
  | _, _ => t

/-- Item loop shared by the three message processors: walk `items_present`
in UAP order keeping `(target, position)`; a position past the end of the
message makes every remaining iteration a no-op (the Python `break`). -/
noncomputable def processItems
    (parseItem : ItemCode → List Nat → Option ItemValue × Nat)
    (applyItem : AsterixTarget → ItemCode → ItemValue → AsterixTarget)
    (raw : List Nat) (start : Nat) (items : List ItemCode)
    (t0 : AsterixTarget) : AsterixTarget :=
  (items.foldl
    (fun (acc : AsterixTarget × Nat) code =>
      let (t, pos) := acc
      if raw.length ≤ pos then acc
      else
        let (itemData, itemLength) := parseItem code (raw.drop pos)
        match itemData with
        | some v => (applyItem ({ t with data_items := t.data_items ++ [(code, v)] }) code v,
                     pos + itemLength)
        | none => (t, pos + itemLength))
    (t0, start)).1

/-- Transcription of `_process_cat48_message` (header already checked by
the caller).  The wall-clock `timestamp` field the source stamps on the
dict is omitted. -/
noncomputable def process_cat48_message (raw : List Nat) : List AsterixTarget :=
  let (fspec, fspecLength) := extract_fspec (raw.drop 3)
  let itemsPresent := decode_fspec fspec cat48_fspec_mapping
  let t := processItems parse_cat48_data_item apply_cat48_item_to_target raw
    (3 + fspecLength) itemsPresent { category := 48 }
  [{ t with track_id := some (generate_track_id t) }]

/-- Transcription of `_process_cat21_message`. -/
noncomputable def process_cat21_message (raw : List Nat) : List AsterixTarget :=
  let (fspec, fspecLength) := extract_fspec (raw.drop 3)
  let itemsPresent := decode_fspec fspec cat21_fspec_mapping
  let t := processItems parse_cat21_data_item apply_cat21_item_to_target raw
    (3 + fspecLength) itemsPresent { category := 21 }
  [{ t with track_id := some (generate_track_id t) }]

/-- Transcription of `_process_cat10_message`. -/
noncomputable def process_cat10_message (raw : List Nat) : List AsterixTarget :=
  let (fspec, fspecLength) := extract_fspec (raw.drop 3)
  let itemsPresent := decode_fspec fspec cat10_fspec_mapping
  let t := processItems parse_cat10_data_item apply_cat10_item_to_target raw
    (3 + fspecLength) itemsPresent { category := 10 }
  [{ t with track_id := some (generate_track_id t) }]

/-- Transcription of `process_asterix_message`: reject messages shorter
than 3 bytes and messages whose declared 2-byte big-endian length exceeds
the data length, then route on the category byte (statistics updates are
side effects and are not part of the returned value). -/
noncomputable def process_asterix_message (raw : List Nat) : List AsterixTarget :=
  if raw.length < 3 then []
  else
    let category := raw.getD 0 0
    let length := beValue ((raw.drop 1).take 2)
    if raw.length < length then
      []
    else if category = 10 then process_cat10_message raw
    else if category = 21 then process_cat21_message raw
    else if category = 48 then process_cat48_message raw
    else []

/-! ## Track calculator (`track_calculator.py`, class `TrackCalculator`)

Real-valued quantities (positions in metres, speeds in m/s, timestamps in
seconds) are embedded over `ℝ`; `datetime` differences
(`.total_seconds()`) become real subtraction.  `numpy` linear algebra is
spelled out: the only matrix produced by `H P Hᵀ + R` is the top-left 2×2
block of the 6×6 covariance plus measurement noise, and `np.linalg.inv`
raising `LinAlgError` on a singular matrix is the `det = 0` branch. -/

/-- Track lifecycle states (`TrackState`). -/
inductive PyTrackState where
  | tentative | confirmed | coasting | terminated
deriving DecidableEq, Repr

/-- Configuration parameters of `TrackCalculator.__init__` (subset used by
the embedded methods, with the `__init__` fallback defaults). -/
structure TrackerConfig where
  max_association_distance : ℝ
  track_confirmation_threshold : Nat
  track_termination_threshold : Nat
  coasting_threshold : Nat
  min_speed_threshold : ℝ
  max_speed_threshold : ℝ
  process_noise_std : ℝ
  measurement_noise_std : ℝ
  maneuver_threshold : ℝ
  acceleration_noise_std : ℝ
  pda_gate_threshold : ℝ

/-- The `__init__` fallback defaults (an empty `config` dictionary). -/
noncomputable def init_defaults : TrackerConfig :=
  { max_association_distance := 10000
    track_confirmation_threshold := 3
    track_termination_threshold := 10
    coasting_threshold := 5
    min_speed_threshold := 2
    max_speed_threshold := 300
    process_noise_std := 5
    measurement_noise_std := 10
    maneuver_threshold := 2
    acceleration_noise_std := 2
    pda_gate_threshold := 15 }

/-- Transcription of `create_default_config` (the module-level function). -/
noncomputable def create_default_config : TrackerConfig :=
  { max_association_distance := 10000
    track_confirmation_threshold := 2
    track_termination_threshold := 15
    coasting_threshold := 8
    min_speed_threshold := 5
    max_speed_threshold := 400
    process_noise_std := 15
    measurement_noise_std := 25
    maneuver_threshold := 1.5
    acceleration_noise_std := 5
    pda_gate_threshold := 15 }

/-- Fields of the `TrackData` dataclass used by the embedded methods.
`position_history` entries are `(x, y, timestamp)`; `course_history`
entries are `(course, timestamp)`; `state_vector` is the 6-vector
`[x, y, vx, vy, ax, ay]` and `covariance_matrix` the 6×6 `P`. -/
structure PyTrackData where
  state : PyTrackState
  position_history : List (ℝ × ℝ × ℝ) := []
  velocity_x : ℝ := 0
  velocity_y : ℝ := 0
  speed_ms : ℝ := 0
  heading_deg : ℝ := 0
  plot_count : Nat := 0
  consecutive_misses : Nat := 0
  quality_score : ℝ := 0
  state_vector : Fin 6 → ℝ := fun _ => 0
  covariance_matrix : Fin 6 → Fin 6 → ℝ := fun i j => if i = j then 1000 else 0
  acceleration_x : ℝ := 0
  acceleration_y : ℝ := 0
  course_history : List (ℝ × ℝ) := []
  predicted_course : ℝ := 0
  course_variance : ℝ := 0
  course_rate : ℝ := 0

/-- Python's `math.atan2(y, x)`: the principal argument of the point
`(x, y)`, in `(-π, π]`. -/
noncomputable def math_atan2 (y x : ℝ) : ℝ :=
  Complex.arg ⟨x, y⟩

/-- Python's `math.degrees`. -/
noncomputable def math_degrees (r : ℝ) : ℝ :=
  r * 180 / Real.pi

/-- Python's `%` on floats for a positive modulus (used as
`(deg + 360) % 360`). -/
noncomputable def pyModR (a m : ℝ) : ℝ :=
  a - m * (⌊a / m⌋ : ℝ)

/-- Transcription of `_predict_track_position`: constant-acceleration
extrapolation from the Kalman state, `(0, 0)` for an empty history. -/
noncomputable def predict_track_position (track : PyTrackData) (timestamp : ℝ) : ℝ × ℝ :=
  match track.position_history.getLast? with
  | none => (0, 0)
  | some last =>
    let dt := timestamp - last.2.2
    let predictedX := track.state_vector 0 + track.velocity_x * dt
      + 0.5 * track.acceleration_x * dt ^ 2
    let predictedY := track.state_vector 1 + track.velocity_y * dt
      + 0.5 * track.acceleration_y * dt ^ 2
    (predictedX, predictedY)

/-- Transcription of `_get_association_gate`. -/
noncomputable def get_association_gate (cfg : TrackerConfig) (track : PyTrackData) : ℝ :=
  let base_gate := cfg.max_association_distance
  let quality_factor := max track.quality_score 0.2
  let speed_factor := min (track.speed_ms / 50.0) 5.0
  let coasting_factor : ℝ := if track.state = .coasting then 2.0 else 1.0
  let gate_size := base_gate * (1.0 + speed_factor) * coasting_factor / quality_factor
  min gate_size 15000.0

/-- Transcription of `_calculate_mahalanobis_distance`:
`H P Hᵀ + R` is the top-left 2×2 covariance block plus
`measurement_noise_std²` on the diagonal; a singular innovation
covariance (`np.linalg.inv` raising) falls back to the squared Euclidean
norm `np.dot(innovation, innovation)`.  The source method also takes the
measurement timestamp but never uses it, so it is not a parameter here. -/
noncomputable def calculate_mahalanobis_distance (cfg : TrackerConfig) (track : PyTrackData)
    (x y : ℝ) (predictedPos : ℝ × ℝ) : ℝ :=
  let ix := x - predictedPos.1
  let iy := y - predictedPos.2
  let s00 := track.covariance_matrix 0 0 + cfg.measurement_noise_std ^ 2
  let s01 := track.covariance_matrix 0 1
  let s10 := track.covariance_matrix 1 0
  let s11 := track.covariance_matrix 1 1 + cfg.measurement_noise_std ^ 2
  let det := s00 * s11 - s01 * s10
  if det = 0 then ix ^ 2 + iy ^ 2
  else (s11 * ix ^ 2 - (s01 + s10) * ix * iy + s00 * iy ^ 2) / det

/-- Euclidean residual between the plot and the track position predicted
at the plot time (`position_distance` in
`_find_course_association_candidates`). -/
noncomputable def position_residual (track : PyTrackData) (x y timestamp : ℝ) : ℝ :=
  let p := predict_track_position track timestamp
  Real.sqrt ((x - p.1) ^ 2 + (y - p.2) ^ 2)

/-- Membership condition of the candidate list built by
`_find_course_association_candidates`: the loop skips `TERMINATED`
tracks and tracks whose Euclidean residual exceeds the dynamic gate, and
appends every other track (with a combined score that only affects the
ordering of the returned list, not membership).  No Mahalanobis test
occurs on this path; `_calculate_mahalanobis_distance` is used only by
the positional fallback `_find_association_candidates`. -/
def is_course_association_candidate (cfg : TrackerConfig) (track : PyTrackData)
    (x y timestamp : ℝ) : Prop :=
  track.state ≠ .terminated ∧
    position_residual track x y timestamp ≤ get_association_gate cfg track

/-- Transcription of `_calculate_kinematics`: speed/heading from the
Kalman velocity, overridden by the two-point finite difference when the
discrepancy exceeds 50 m/s; the heading is written only while the
then-current speed exceeds `min_speed_threshold`. -/
noncomputable def calculate_kinematics (cfg : TrackerConfig) (t : PyTrackData) : PyTrackData :=
  if t.position_history.length < 2 then t
  else
    let vx := t.velocity_x
    let vy := t.velocity_y
    let speed1 := Real.sqrt (vx ^ 2 + vy ^ 2)
    let heading1 :=
      if cfg.min_speed_threshold < speed1 then
        pyModR (math_degrees (math_atan2 vx vy) + 360) 360
      else t.heading_deg
    match t.position_history.getLast?, t.position_history.dropLast.getLast? with
    | some p2, some p1 =>
      let dt := p2.2.2 - p1.2.2
      if 0 < dt then
        let dx := p2.1 - p1.1
        let dy := p2.2.1 - p1.2.1
        let speed_check := Real.sqrt (dx ^ 2 + dy ^ 2) / dt
        if 50 < |speed_check - speed1| then
          let heading2 :=
            if cfg.min_speed_threshold < speed_check then
              pyModR (math_degrees (math_atan2 dx dy) + 360) 360
            else heading1
          { t with speed_ms := speed_check, heading_deg := heading2 }
        else { t with speed_ms := speed1, heading_deg := heading1 }
      else { t with speed_ms := speed1, heading_deg := heading1 }
    | _, _ => { t with speed_ms := speed1, heading_deg := heading1 }

/-! ## Track lifecycle (`process_plot_batch` and its helpers)

For the lifecycle bounds only the state, the plot count and the miss
counter of each track matter; the per-plot association decision — which
depends on the real-valued scores above — is abstracted into an oracle:
each plot's `Option Nat` choice is the index of the active track that
`_process_single_plot` associates the plot with (`none`, or an index out
of range, when `_initiate_new_track` runs instead).  Every concrete run
of the Python batch loop is one instance of some oracle, so properties
proved for all oracles hold of the source.  Track ids are the
`len(active) + len(terminated) + 1` counters the source formats into
`track_%06d` strings. -/

/-- Lifecycle-relevant fields of a track. -/
structure LifecycleTrack where
  track_id : Nat
  state : PyTrackState
  plot_count : Nat
  consecutive_misses : Nat
deriving DecidableEq, Repr

/-- The mutable state of a `TrackCalculator`: `active_tracks` and
`terminated_tracks` (insertion-ordered, as Python 3.7+ dicts are). -/
structure CalculatorState where
  active_tracks : List LifecycleTrack
  terminated_tracks : List LifecycleTrack
deriving DecidableEq, Repr

/-- Fresh-calculator state (`__init__`). -/
def initial_calculator_state : CalculatorState :=
  { active_tracks := [], terminated_tracks := [] }

/-- Lifecycle effect of `_initiate_new_track`: a `TENTATIVE` track with
`plot_count = 1` and the dataclass default `consecutive_misses = 0`. -/
def new_track_in (s : CalculatorState) : LifecycleTrack :=
  { track_id := s.active_tracks.length + s.terminated_tracks.length + 1
    state := .tentative
    plot_count := 1
    consecutive_misses := 0 }

/-- Lifecycle effect of `_associate_plot_to_track`:
`plot_count += 1`, `consecutive_misses = 0`. -/
def associate_update (t : LifecycleTrack) : LifecycleTrack :=
  { t with plot_count := t.plot_count + 1, consecutive_misses := 0 }

/-- Lifecycle effect of `_process_single_plot` under one oracle decision:
associate the plot with the chosen active track (recording its id in
`updated_tracks`) or initiate a new track. -/
def process_single_plot (s : CalculatorState) (updated : List Nat)
    (choice : Option Nat) : CalculatorState × List Nat :=
  match choice with
  | some i =>
    if h : i < s.active_tracks.length then
      let t := s.active_tracks.get ⟨i, h⟩
      ({ s with active_tracks := s.active_tracks.set i (associate_update t) },
        updated ++ [t.track_id])
    else
      ({ s with active_tracks := s.active_tracks ++ [new_track_in s] }, updated)
  | none =>
    ({ s with active_tracks := s.active_tracks ++ [new_track_in s] }, updated)

/-- Transcription of `_age_unassociated_tracks`: every non-`TERMINATED`
active track not updated in this batch gets `consecutive_misses += 1`. -/
def age_unassociated_tracks (updated : List Nat) (tracks : List LifecycleTrack) :
    List LifecycleTrack :=
  tracks.map fun t =>
    if t.state = .terminated then t
    else if t.track_id ∈ updated then t
    else { t with consecutive_misses := t.consecutive_misses + 1 }

/-- Transcription of `_update_track_states`: confirmation then coasting,
evaluated in order on each non-`TERMINATED` active track. -/
def update_track_states (cfg : TrackerConfig) (tracks : List LifecycleTrack) :
    List LifecycleTrack :=
  tracks.map fun t =>
    if t.state = .terminated then t
    else
      let t1 := if t.state = .tentative ∧ cfg.track_confirmation_threshold ≤ t.plot_count
        then { t with state := .confirmed } else t
      if cfg.coasting_threshold ≤ t1.consecutive_misses ∧ t1.state = .confirmed
        then { t1 with state := .coasting } else t1

/-- Termination test of `_perform_track_maintenance`: too many
consecutive misses, or a stale unconfirmed tentative track. -/
def termination_due (cfg : TrackerConfig) (t : LifecycleTrack) : Bool :=
  decide (cfg.track_termination_threshold ≤ t.consecutive_misses ∨
    (t.state = .tentative ∧ t.plot_count < cfg.track_confirmation_threshold ∧
      7 ≤ t.consecutive_misses))

/-- Transcription of `_perform_track_maintenance`: pop every track due
for termination from the active set, mark it `TERMINATED` and archive
it. -/
def perform_track_maintenance (cfg : TrackerConfig) (s : CalculatorState) : CalculatorState :=
  { active_tracks := s.active_tracks.filter fun t => ! termination_due cfg t
    terminated_tracks := s.terminated_tracks ++
      ((s.active_tracks.filter (termination_due cfg)).map fun t => { t with state := .terminated }) }

/-- Transcription of `process_plot_batch` (lifecycle effect): process the
plots in order under the oracle, then age, update states and perform
maintenance. -/
def process_plot_batch (cfg : TrackerConfig) (s : CalculatorState)
    (choices : List (Option Nat)) : CalculatorState :=
  let folded := choices.foldl
    (fun (acc : CalculatorState × List Nat) c => process_single_plot acc.1 acc.2 c)
    (s, [])
  let s1 := folded.1
  let updated := folded.2
  let aged : CalculatorState :=
    { s1 with active_tracks := age_unassociated_tracks updated s1.active_tracks }
  let staged : CalculatorState :=
    { aged with active_tracks := update_track_states cfg aged.active_tracks }
  perform_track_maintenance cfg staged

/-- States a `TrackCalculator` can reach: the fresh state, and anything
obtained from a reachable state by processing one batch under some
association oracle. -/
inductive ReachableState (cfg : TrackerConfig) : CalculatorState → Prop where
  | init : ReachableState cfg initial_calculator_state
  | step (s : CalculatorState) (choices : List (Option Nat)) :
      ReachableState cfg s → ReachableState cfg (process_plot_batch cfg s choices)

/-- Inductive invariant for the lifecycle bounds: active tracks sit
strictly below the termination threshold and are never `TERMINATED`;
archived tracks never exceed `termination_threshold + 1` misses. -/
def LifecycleInv (cfg : TrackerConfig) (s : CalculatorState) : Prop :=
  (∀ t ∈ s.active_tracks,
    t.consecutive_misses < cfg.track_termination_threshold ∧ t.state ≠ .terminated) ∧
  (∀ t ∈ s.terminated_tracks,
    t.consecutive_misses ≤ cfg.track_termination_threshold + 1)

/-! ## Concrete inputs used by the claim theorems -/

/-- Example track dictionary handed to the ST 0601 encoder
(`mission_id = "MISSION-T1"`, `platform_id = "T1"` as UTF-8 bytes). -/
def st0601_example_track : KlvTrack :=
  { mission_id := [77, 73, 83, 83, 73, 79, 78, 45, 84, 49]
    platform_id := [84, 49]
    heading := some 90
    latitude := some 28
    longitude := some (-80)
    altitude := some 1000 }

/-- The 70-byte ST 0601 packet the encoder produces for the example track
at timestamp 1700000000000000 µs. -/
def st0601_example_packet : List Nat :=
  create_st0601_packet 1700000000000000 st0601_example_track

/-- The example packet with one payload byte flipped (offset 30, inside
the UNIX-timestamp item value, XOR 0x01). -/
def st0601_corrupted_packet : List Nat :=
  st0601_example_packet.set 30 ((st0601_example_packet.getD 30 0) ^^^ 1)

/-- Scenario S1 input of the specification:
`30 00 14 F8 00 01 02 00 00 00 02 0A 80 40 00 12 34` (17 bytes; the
declared block length field holds 0x0014 = 20). -/
def s1_input : List Nat :=
  [0x30, 0x00, 0x14, 0xF8, 0x00, 0x01, 0x02, 0x00,
   0x00, 0x00, 0x02, 0x0A, 0x80, 0x40, 0x00, 0x12, 0x34]

/-- A 6-byte I021/040 item payload (latitude raw 0x100000, longitude raw
0x200000). -/
def i021_040_example : List Nat :=
  [0x10, 0x00, 0x00, 0x20, 0x00, 0x00]

/-- A freshly initiated track (the state `_initiate_new_track` leaves:
`TENTATIVE`, zero quality and speed, identity-scaled covariance
`np.eye(6) * 1000`, one history point) placed at the origin at time 0. -/
def c3_track : PyTrackData :=
  { state := .tentative
    position_history := [(0, 0, 0)] }

/-- A track with Kalman velocity 500 m/s east and a matching position
history (two points 500 m apart, 1 s apart). -/
def c5_track : PyTrackData :=
  { state := .confirmed
    position_history := [(0, 0, 0), (500, 0, 1)]
    velocity_x := 500
    velocity_y := 0 }

/-- The single active track left by processing a one-plot batch (one new
track, aged once) from the fresh state under `create_default_config`. -/
def c6_example_track : LifecycleTrack :=
  { track_id := 1, state := .tentative, plot_count := 1, consecutive_misses := 1 }

/-! ## Theorems -/

/-- Claim C1: the claim states that the decoder verifies the 16-bit
checksum of every encoder-produced ST 0601 / ST 0902 packet and rejects a
packet with a flipped payload byte with `ChecksumFailure`.  The code does
not: `validate_klv_packet` checks only the Universal Key and the BER
length (its checksum check is an unimplemented TODO), and
`parse_klv_packet` parses without ever consulting the checksum item, so
the encoder-produced example packet with payload byte 30 flipped still
validates and parses. -/
theorem C1_checksum_not_verified :
    validate_klv_packet st0601_example_packet = true ∧
    validate_klv_packet st0601_corrupted_packet = true ∧
    st0601_corrupted_packet ≠ st0601_example_packet ∧
    (parse_klv_packet st0601_corrupted_packet).isSome = true := by
  with_unfolding_all decide

/-- Claim C2 (counterexample): decoding the 17-byte S1 input yields no
target at all — not the single Cat-48 plot the claim describes — because
the declared block length 0x0014 = 20 exceeds the 17-byte payload and
`process_asterix_message` rejects the message. -/
theorem C2_counterexample :
    process_asterix_message s1_input = [] ∧
    (process_asterix_message s1_input).length ≠ 1 := by
  refine ⟨rfl, ?_⟩
  rw [show process_asterix_message s1_input = [] from rfl]
  simp

/-- Claim C2 (amended): the 17-hex-byte S1 input declares a block length
of 20 bytes, which exceeds its actual 17 bytes, so `process_asterix_message`
rejects the message and yields no plots. -/
theorem C2_s1_rejected :
    process_asterix_message s1_input = [] ∧
    beValue ((s1_input.drop 1).take 2) = 20 ∧
    s1_input.length = 17 ∧
    s1_input.length < beValue ((s1_input.drop 1).take 2) :=
  ⟨rfl, by decide, by decide, by decide⟩

/-- Claim C3 (counterexample): a freshly initiated track 200 m from a
plot is an association candidate of the course-based search even though
its Mahalanobis distance (40000/1625 ≈ 24.6 under `create_default_config`)
exceeds the `pda_gate_threshold` of 15 — the claimed "candidate iff
Mahalanobis ≤ gate and residual ≤ dynamic gate" equivalence is false. -/
theorem C3_counterexample :
    is_course_association_candidate create_default_config c3_track 200 0 0 ∧
    ¬ (calculate_mahalanobis_distance create_default_config c3_track 200 0
        (predict_track_position c3_track 0) ≤ create_default_config.pda_gate_threshold) := by
  have hpred : predict_track_position c3_track 0 = (0, 0) := by
    simp [predict_track_position, c3_track]
  constructor
  · constructor
    · simp [c3_track]
    · rw [position_residual, hpred]
      have h2 : ((200:ℝ) - 0) ^ 2 + (0 - 0) ^ 2 = 200 ^ 2 := by norm_num
      rw [h2, Real.sqrt_sq (by norm_num : (0:ℝ) ≤ 200)]
      have h3 : get_association_gate create_default_config c3_track = 15000 := by
        simp [get_association_gate, create_default_config, c3_track]
        norm_num
      rw [h3]; norm_num
  · rw [hpred, calculate_mahalanobis_distance]
    norm_num [c3_track, create_default_config]

/-- Claim C3 (amended): a non-terminated track is a candidate of the
course-based association search if and only if its Euclidean position
residual is within the dynamic gate; the Mahalanobis statistic plays no
part — candidacy is invariant under arbitrary changes to the track's
covariance matrix (the only input of the Mahalanobis distance that the
residual and gate do not share). -/
theorem C3_candidate_characterisation (cfg : TrackerConfig) (track : PyTrackData)
    (x y ts : ℝ) (C : Fin 6 → Fin 6 → ℝ) :
    (is_course_association_candidate cfg track x y ts ↔
      track.state ≠ .terminated ∧
        position_residual track x y ts ≤ get_association_gate cfg track) ∧
    (is_course_association_candidate cfg { track with covariance_matrix := C } x y ts ↔
      is_course_association_candidate cfg track x y ts) :=
  ⟨Iff.rfl, Iff.rfl⟩

/-- Claim C4: the claim states that the I021/040 branch reads 6 bytes and
produces signed lat/lon scaled by 180/2²³.  In the code the branch calls
`struct.unpack` with format `'>II'` (8 bytes) on the 6-byte slice, which
always raises, so the item parser returns `(None, 0)` for every input:
no latitude or longitude is ever decoded and no bytes are consumed. -/
theorem C4_i021_040_never_decodes :
    parse_cat21_data_item ⟨21, 40⟩ i021_040_example = (none, 0) ∧
    ∀ data : List Nat, parse_cat21_data_item ⟨21, 40⟩ data = (none, 0) := by
  refine ⟨by decide, fun data => ?_⟩
  by_cases h : data.length < 6
  · simp [parse_cat21_data_item, h]
  · simp only [parse_cat21_data_item, if_neg h, unpackU32PairBE, List.length_take]
    rw [Nat.min_eq_left (Nat.le_of_not_lt h)]
    norm_num

/-- Claim C5 (counterexample): `_calculate_kinematics` writes the raw
Kalman speed into the track without any upper clamp: a track with Kalman
velocity 500 m/s east (consistent with its position history) ends with
`speed_ms = 500`, above the `max_speed_threshold` of 400 — the claimed
invariant `speed_ms ∈ [0, max_speed_threshold]` is false. -/
theorem C5_counterexample :
    (calculate_kinematics create_default_config c5_track).speed_ms = 500 ∧
    ¬ ((calculate_kinematics create_default_config c5_track).speed_ms ≤
        create_default_config.max_speed_threshold) := by
  have hsp : (calculate_kinematics create_default_config c5_track).speed_ms = 500 := by
    have hsq : Real.sqrt (250000 : ℝ) = 500 := by
      have h : (250000 : ℝ) = 500 ^ 2 := by norm_num
      rw [h, Real.sqrt_sq]; norm_num
    simp only [calculate_kinematics, c5_track]
    norm_num [hsq]
  refine ⟨hsp, ?_⟩
  rw [hsp]
  show ¬ ((500:ℝ) ≤ (400:ℝ))
  norm_num

/-- Claim C5 (amended): `_calculate_kinematics` keeps `speed_ms`
non-negative (it writes either `√(vx²+vy²)` or a non-negative finite
difference, or leaves the field unchanged); the upper bound by
`max_speed_threshold` does not hold, and `heading_deg` is a total field
(initialised to 0) that is merely left unchanged — never "undefined" —
when the speed is at or below `min_speed_threshold`. -/
theorem C5_speed_nonneg (cfg : TrackerConfig) (t : PyTrackData) (h : 0 ≤ t.speed_ms) :
    0 ≤ (calculate_kinematics cfg t).speed_ms := by
  unfold calculate_kinematics
  split
  · exact h
  · rcases hgl : t.position_history.getLast? with _ | p2 <;>
      rcases hgl2 : t.position_history.dropLast.getLast? with _ | p1 <;>
        simp only [hgl, hgl2]
    · exact Real.sqrt_nonneg _
    · exact Real.sqrt_nonneg _
    · exact Real.sqrt_nonneg _
    · split
      · rename_i hdt
        split
        · exact div_nonneg (Real.sqrt_nonneg _) (le_of_lt hdt)
        · exact Real.sqrt_nonneg _
      · exact Real.sqrt_nonneg _

/-- Witness for C5: the concrete 500 m/s track satisfies the hypothesis
`0 ≤ speed_ms` and the conclusion. -/
theorem C5_speed_nonneg_witness :
    0 ≤ (calculate_kinematics create_default_config c5_track).speed_ms :=
  C5_speed_nonneg create_default_config c5_track (by simp [c5_track])

/-- One oracle step of the batch's plot loop keeps every active track
strictly below `max termination_threshold 1` misses and non-terminated
(associated tracks reset to 0 misses, new tracks start at 0). -/
theorem single_plot_phase (cfg : TrackerConfig) (s : CalculatorState) (updated : List Nat)
    (c : Option Nat)
    (hs : ∀ t ∈ s.active_tracks,
      t.consecutive_misses < max cfg.track_termination_threshold 1 ∧ t.state ≠ .terminated) :
    ∀ t ∈ (process_single_plot s updated c).1.active_tracks,
      t.consecutive_misses < max cfg.track_termination_threshold 1 ∧ t.state ≠ .terminated := by
  have hnew : (new_track_in s).consecutive_misses < max cfg.track_termination_threshold 1 ∧
      (new_track_in s).state ≠ .terminated := by
    refine ⟨?_, by simp [new_track_in]⟩
    exact Nat.lt_of_lt_of_le Nat.zero_lt_one (Nat.le_max_right _ _)
  intro t ht
  match c with
  | none =>
    simp only [process_single_plot] at ht
    rcases List.mem_append.mp ht with h1 | h1
    · exact hs t h1
    · simp only [List.mem_singleton] at h1
      subst h1
      exact hnew
  | some i =>
    by_cases hi : i < s.active_tracks.length
    · simp only [process_single_plot, dif_pos hi] at ht
      rcases List.mem_or_eq_of_mem_set ht with h1 | h1
      · exact hs t h1
      · subst h1
        have hmem := List.get_mem s.active_tracks i hi
        refine ⟨?_, (hs _ hmem).2⟩
        simp only [associate_update]
        exact Nat.lt_of_lt_of_le Nat.zero_lt_one (Nat.le_max_right _ _)
    · simp only [process_single_plot, dif_neg hi] at ht
      rcases List.mem_append.mp ht with h1 | h1
      · exact hs t h1
      · simp only [List.mem_singleton] at h1
        subst h1
        exact hnew

/-- The full plot loop preserves the per-plot bound of
`single_plot_phase`. -/
theorem fold_phase (cfg : TrackerConfig) (choices : List (Option Nat)) :
    ∀ (s : CalculatorState) (updated : List Nat),
      (∀ t ∈ s.active_tracks,
        t.consecutive_misses < max cfg.track_termination_threshold 1 ∧ t.state ≠ .terminated) →
      ∀ t ∈ (choices.foldl
          (fun (acc : CalculatorState × List Nat) c => process_single_plot acc.1 acc.2 c)
          (s, updated)).1.active_tracks,
        t.consecutive_misses < max cfg.track_termination_threshold 1 ∧ t.state ≠ .terminated := by
  induction choices with
  | nil => intro s updated hs; simpa using hs
  | cons c cs ih =>
    intro s updated hs
    simp only [List.foldl_cons]
    exact ih _ _ (single_plot_phase cfg s updated c hs)

/-- Ageing adds at most one miss to each active track and never changes
states. -/
theorem aging_phase (cfg : TrackerConfig) (updated : List Nat) (tracks : List LifecycleTrack)
    (hs : ∀ t ∈ tracks,
      t.consecutive_misses < max cfg.track_termination_threshold 1 ∧ t.state ≠ .terminated) :
    ∀ t ∈ age_unassociated_tracks updated tracks,
      t.consecutive_misses ≤ max cfg.track_termination_threshold 1 ∧ t.state ≠ .terminated := by
  intro t ht
  simp only [age_unassociated_tracks, List.mem_map] at ht
  obtain ⟨u, hu, rfl⟩ := ht
  obtain ⟨h1, h2⟩ := hs u hu
  split_ifs with h3 h4
  · exact ⟨Nat.le_of_lt h1, h2⟩
  · exact ⟨Nat.le_of_lt h1, h2⟩
  · exact ⟨h1, h2⟩

/-- State updates (confirmation, coasting) keep miss counts and never
produce a `TERMINATED` state. -/
theorem states_phase (cfg : TrackerConfig) (tracks : List LifecycleTrack)
    (hs : ∀ t ∈ tracks,
      t.consecutive_misses ≤ max cfg.track_termination_threshold 1 ∧ t.state ≠ .terminated) :
    ∀ t ∈ update_track_states cfg tracks,
      t.consecutive_misses ≤ max cfg.track_termination_threshold 1 ∧ t.state ≠ .terminated := by
  intro t ht
  simp only [update_track_states, List.mem_map] at ht
  obtain ⟨u, hu, rfl⟩ := ht
  obtain ⟨h1, h2⟩ := hs u hu
  split_ifs with h3 h4 h5 h6
  all_goals simp_all

/-- The plot loop never touches the archive. -/
theorem plot_fold_keeps_terminated (choices : List (Option Nat)) :
    ∀ (s : CalculatorState) (updated : List Nat),
      (choices.foldl
        (fun (acc : CalculatorState × List Nat) c => process_single_plot acc.1 acc.2 c)
        (s, updated)).1.terminated_tracks = s.terminated_tracks := by
  induction choices with
  | nil => intro s updated; rfl
  | cons c cs ih =>
    intro s updated
    simp only [List.foldl_cons]
    rw [ih]
    cases c with
    | none => rfl
    | some i =>
      by_cases hi : i < s.active_tracks.length
      · simp [process_single_plot, dif_pos hi]
      · simp [process_single_plot, dif_neg hi]

/-- One processed batch preserves the lifecycle invariant, whatever the
association oracle decides. -/
theorem batch_preserves_inv (cfg : TrackerConfig) (s : CalculatorState)
    (choices : List (Option Nat)) (h : LifecycleInv cfg s) :
    LifecycleInv cfg (process_plot_batch cfg s choices) := by
  obtain ⟨hact, harch⟩ := h
  set folded := choices.foldl
    (fun (acc : CalculatorState × List Nat) c => process_single_plot acc.1 acc.2 c)
    (s, []) with hf
  have hbatch : process_plot_batch cfg s choices =
      perform_track_maintenance cfg
        { active_tracks := update_track_states cfg
            (age_unassociated_tracks folded.2 folded.1.active_tracks)
          terminated_tracks := folded.1.terminated_tracks } := rfl
  have h1 := fold_phase cfg choices s []
    (fun t ht => ⟨Nat.lt_of_lt_of_le (hact t ht).1 (Nat.le_max_left _ _), (hact t ht).2⟩)
  have h2 := aging_phase cfg folded.2 folded.1.active_tracks h1
  have h3 := states_phase cfg _ h2
  rw [hbatch]
  constructor
  · intro t ht
    simp only [perform_track_maintenance, List.mem_filter, Bool.not_eq_true'] at ht
    obtain ⟨hmem, hcond⟩ := ht
    refine ⟨?_, (h3 t hmem).2⟩
    simp only [termination_due, decide_eq_false_iff_not, not_or] at hcond
    omega
  · intro t ht
    simp only [perform_track_maintenance] at ht
    rcases List.mem_append.mp ht with hmem | hmem
    · rw [plot_fold_keeps_terminated choices s []] at hmem
      exact harch t hmem
    · obtain ⟨u, hu, rfl⟩ := List.mem_map.mp hmem
      have hm := (h3 u (List.mem_filter.mp hu).1).1
      show u.consecutive_misses ≤ cfg.track_termination_threshold + 1
      omega

/-- Every reachable calculator state satisfies the lifecycle invariant. -/
theorem reachable_inv (cfg : TrackerConfig) (s : CalculatorState)
    (h : ReachableState cfg s) : LifecycleInv cfg s := by
  induction h with
  | init =>
    exact ⟨fun t ht => absurd ht (List.not_mem_nil t),
      fun t ht => absurd ht (List.not_mem_nil t)⟩
  | step s' choices _ ih => exact batch_preserves_inv cfg s' choices ih

/-- Claim C6: after every processed batch — in fact in every reachable
calculator state — no track, active or archived, has
`consecutive_misses > track_termination_threshold + 1`, and the active
set contains no `TERMINATED` track, whatever association decisions the
batches made. -/
theorem C6_lifecycle_bounds (cfg : TrackerConfig) (s : CalculatorState)
    (h : ReachableState cfg s) :
    (∀ t ∈ s.active_tracks,
      t.consecutive_misses ≤ cfg.track_termination_threshold + 1 ∧ t.state ≠ .terminated) ∧
    (∀ t ∈ s.terminated_tracks,
      t.consecutive_misses ≤ cfg.track_termination_threshold + 1) := by
  obtain ⟨hact, harch⟩ := reachable_inv cfg s h
  exact ⟨fun t ht => ⟨by have := (hact t ht).1; omega, (hact t ht).2⟩, harch⟩

/-- Witness for C6: the state after one single-plot batch from the fresh
calculator is reachable, and its one active track (1 miss after ageing)
satisfies the bounds. -/
theorem C6_lifecycle_bounds_witness :
    c6_example_track.consecutive_misses ≤
      create_default_config.track_termination_threshold + 1 ∧
    c6_example_track.state ≠ .terminated :=
  (C6_lifecycle_bounds create_default_config
      (process_plot_batch create_default_config initial_calculator_state [none])
      (ReachableState.step initial_calculator_state [none] ReachableState.init)).1
    c6_example_track (by decide)
